import Mathlib

/-!
Shallow embedding of the headless-chromium control shim
(`src/browser.hpp`, `src/browser.cc`, `src/cc/hc_server/browser.cc`,
`src/cc/hc_server/main.cc`).

The `Browser` class owns four slots initialised in its constructor:
`browser_` (engine handle), `browser_context_`, `web_contents_` (all raw
pointers, initialised to `nullptr`) and `pageLoadedCb_` (a
default-constructed, hence empty, `std::function<void()>`).  Pointers are
modelled as `Option Nat` (`none` = `nullptr`); the empty `std::function`
as `none`.  Calls into the engine (`Close`, `AddObserver`,
`Runtime::Evaluate`, ...) are recorded as `EngineCall`s; invocations of
host-supplied continuations are recorded by their numeric identifier; a
dereference of a null pointer or a call of an empty `std::function`
surfaces as a `Crash`.

The member functions `OpenUrl`, `Evaluate`, `Shutdown`, `onStart`,
`DevToolsTargetReady` and `OnLoadEventFired`, and the helper
`EvaluateCallback`, are character-for-character identical in
`src/browser.cc` and `src/cc/hc_server/browser.cc`; one embedding covers
both.  The argument-parsing `Browser::Run` of `src/cc/hc_server/browser.cc`
is embedded separately as `hcRun`.
-/

/-- Ways the C++ code can go wrong at runtime: dereferencing a null
pointer, or invoking a default-constructed (empty) `std::function`,
which throws `std::bad_function_call`. -/
inductive Crash where
  | nullDeref
  | badFunctionCall
  deriving DecidableEq, Repr

/-- Calls the shim issues into the engine / devtools client, in program
order.  Each constructor corresponds to one call site in the source. -/
inductive EngineCall where
  | closeWebContents (wc : Nat)
  | addWCObserver (wc : Nat)
  | removeWCObserver (wc : Nat)
  | closeContext (ctx : Nat)
  | shutdownBrowser (b : Nat)
  | attachClient (wc : Nat)
  | addPageObserver
  | enablePage
  | submitEvaluate (script : String) (resultCb : Nat)
  deriving DecidableEq, Repr

/-- The data members of class `Browser` (`src/browser.hpp`, lines 40 to 44),
plus the externally visible registration status of the devtools client:
`pageObserverAdded` records whether `devtools_client_->GetPage()->AddObserver(this)`
has been issued without a matching removal, and `clientAttached` records
whether the client is attached to a devtools target.  `devtools_client_`
itself is created in the constructor and is never null, so it needs no slot. -/
structure BrowserState where
  browser_ : Option Nat
  browser_context_ : Option Nat
  web_contents_ : Option Nat
  pageLoadedCb_ : Option Nat
  pageObserverAdded : Bool
  clientAttached : Bool
  deriving DecidableEq, Repr

/-- The `Browser` constructor: all pointers null, `pageLoadedCb_` the empty
function, no registrations. -/
def Browser.init : BrowserState :=
  { browser_ := none, browser_context_ := none, web_contents_ := none,
    pageLoadedCb_ := none, pageObserverAdded := false, clientAttached := false }

/-- Identifier of the `signalReady` upcall lambda used by the ABI adapter
(`run_browser` and `open_url` in `src/browser.cc`). -/
def signalReadyCb : Nat := 0

/-- Identifier of the `signalEvaluateResult` upcall lambda used by
`evaluate_script` in `src/browser.cc`. -/
def signalEvaluateResultCb : Nat := 1

/-- Embedding of `Browser::OpenUrl` (`src/browser.cc` lines 19 to 29,
identical in `src/cc/hc_server/browser.cc` lines 86 to 96):

  construct `GURL gurl(url)`; if `web_contents_` is non-null, call
  `web_contents_->Close()`; then `browser_context_ =
  browser_->CreateBrowserContextBuilder().Build()` (this dereferences
  `browser_`, and yields a fresh context handle `newCtx`); build new web
  contents (`buildResult` is the engine's answer, `none` for failure);
  if null, return false; otherwise `web_contents_->AddObserver(this)` and
  return true.

  Exactly as in the source, the parameters `url`, `width`, `height` and
  `readyCb` are accepted but never consulted, and `pageLoadedCb_` is not
  assigned. -/
def Browser.OpenUrl (s : BrowserState) (url : String) (width height : Int)
    (readyCb : Nat) (newCtx : Nat) (buildResult : Option Nat) :
    Except Crash (BrowserState × Bool × List EngineCall) :=
  let closeActs : List EngineCall :=
    match s.web_contents_ with
    | some wc => [EngineCall.closeWebContents wc]
    | none => []
  match s.browser_ with
  | none => Except.error Crash.nullDeref
  | some _ =>
    let s1 : BrowserState := { s with browser_context_ := some newCtx }
    let s2 : BrowserState := { s1 with web_contents_ := buildResult }
    match buildResult with
    | none => Except.ok (s2, false, closeActs)
    | some wc => Except.ok (s2, true, closeActs ++ [EngineCall.addWCObserver wc])

/-- Embedding of `Browser::Shutdown` (`src/browser.cc` lines 55 to 65,
identical in `src/cc/hc_server/browser.cc` lines 122 to 132):

  `if (!browser_) return;` then, if `web_contents_` is non-null,
  `web_contents_->RemoveObserver(this)` and null it; then, with no guard,
  `browser_context_->Close()` (a null dereference whenever
  `browser_context_` is null at this point), null it; then
  `browser_->Shutdown()` and null `browser_`. -/
def Browser.Shutdown (s : BrowserState) : Except Crash (BrowserState × List EngineCall) :=
  match s.browser_ with
  | none => Except.ok (s, [])
  | some b =>
    let step1 : BrowserState × List EngineCall :=
      match s.web_contents_ with
      | some wc => ({ s with web_contents_ := none }, [EngineCall.removeWCObserver wc])
      | none => (s, [])
    match step1.1.browser_context_ with
    | none => Except.error Crash.nullDeref
    | some ctx =>
      Except.ok ({ step1.1 with browser_context_ := none, browser_ := none },
        step1.2 ++ [EngineCall.closeContext ctx, EngineCall.shutdownBrowser b])

/-- Embedding of `Browser::onStart` (`src/browser.cc` lines 67 to 70):
store the engine handle, then invoke the readiness continuation. -/
def Browser.onStart (s : BrowserState) (readyCb : Nat) (browser : Nat) :
    BrowserState × List Nat :=
  ({ s with browser_ := some browser }, [readyCb])

/-- Embedding of `Browser::DevToolsTargetReady` (`src/browser.cc` lines 72
to 76): `web_contents_->GetDevToolsTarget()->AttachClient(devtools_client_.get())`
(a dereference of `web_contents_`), then
`devtools_client_->GetPage()->AddObserver(this)` and
`devtools_client_->GetPage()->Enable()`. -/
def Browser.DevToolsTargetReady (s : BrowserState) :
    Except Crash (BrowserState × List EngineCall) :=
  match s.web_contents_ with
  | none => Except.error Crash.nullDeref
  | some wc =>
    Except.ok ({ s with pageObserverAdded := true, clientAttached := true },
      [EngineCall.attachClient wc, EngineCall.addPageObserver, EngineCall.enablePage])

/-- Embedding of `Browser::OnLoadEventFired` (`src/browser.cc` lines 78 to
80): the body is the single statement `pageLoadedCb_();`.  Invoking an
empty `std::function` throws `std::bad_function_call`. -/
def Browser.OnLoadEventFired (s : BrowserState) :
    Except Crash (BrowserState × List Nat) :=
  match s.pageLoadedCb_ with
  | none => Except.error Crash.badFunctionCall
  | some cb => Except.ok (s, [cb])

/-- Embedding of `Browser::Evaluate` (`src/browser.cc` lines 50 to 53): the
body is the single unconditional statement
`devtools_client_->GetRuntime()->Evaluate(script, base::Bind(&EvaluateCallback, resultCb));`
— no state inspection, no guard, no return value. -/
def Browser.Evaluate (s : BrowserState) (script : String) (resultCb : Nat) :
    BrowserState × List EngineCall :=
  (s, [EngineCall.submitEvaluate script resultCb])

/-- The fields of `headless::runtime::EvaluateResult` that
`EvaluateCallback` consults: `HasExceptionDetails()`,
`GetExceptionDetails()->GetText()`, and
`GetResult()->Serialize()->GetAsString(&value)`. -/
structure EvaluateResult where
  hasExceptionDetails : Bool
  exceptionText : String
  valueString : String
  deriving DecidableEq, Repr

/-- Embedding of the anonymous-namespace helper `EvaluateCallback`
(`src/browser.cc` lines 33 to 46), returning the list of invocations of
`cb` with their `(success, text)` arguments.  The source checks
`HasExceptionDetails()` twice (once redundantly around the text
extraction); both checks are kept. -/
def EvaluateCallback (result : EvaluateResult) : List (Bool × String) :=
  if result.hasExceptionDetails then
    let exception : String :=
      if result.hasExceptionDetails then result.exceptionText else ""
    [(false, exception)]
  else
    [(true, result.valueString)]

/-- Engine-delivered events and host-issued calls that drive one `Browser`,
in the order the engine's single loop delivers them.  `evOnStart` carries
the readiness continuation `Run` was given and the engine handle the
engine passes to `onStart`; `evOpenUrl` carries the engine's fresh
context handle and the result of `HeadlessWebContents::Builder::Build()`. -/
inductive Event where
  | evOnStart (readyCb : Nat) (browser : Nat)
  | evOpenUrl (url : String) (width height : Int) (readyCb newCtx : Nat)
      (buildResult : Option Nat)
  | evDevToolsTargetReady
  | evLoadEventFired
  | evEvaluate (script : String) (resultCb : Nat)
  | evShutdown
  deriving DecidableEq, Repr

/-- One step of the session: dispatch an event to the member function that
handles it.  Produces the new state, the engine calls issued, and the host
continuations invoked. -/
def step (s : BrowserState) : Event →
    Except Crash (BrowserState × List EngineCall × List Nat)
  | Event.evOnStart readyCb b =>
    let r := Browser.onStart s readyCb b
    Except.ok (r.1, [], r.2)
  | Event.evOpenUrl url w h cb ctx br =>
    match Browser.OpenUrl s url w h cb ctx br with
    | Except.error c => Except.error c
    | Except.ok (s1, _, acts) => Except.ok (s1, acts, [])
  | Event.evDevToolsTargetReady =>
    match Browser.DevToolsTargetReady s with
    | Except.error c => Except.error c
    | Except.ok (s1, acts) => Except.ok (s1, acts, [])
  | Event.evLoadEventFired =>
    match Browser.OnLoadEventFired s with
    | Except.error c => Except.error c
    | Except.ok (s1, inv) => Except.ok (s1, [], inv)
  | Event.evEvaluate script cb =>
    let r := Browser.Evaluate s script cb
    Except.ok (r.1, r.2, [])
  | Event.evShutdown =>
    match Browser.Shutdown s with
    | Except.error c => Except.error c
    | Except.ok (s1, acts) => Except.ok (s1, acts, [])

/-- Run a list of events from a state, accumulating engine calls and
invoked continuations; stops at the first crash. -/
def run (s : BrowserState) :
    List Event → (Except Crash BrowserState) × List EngineCall × List Nat
  | [] => (Except.ok s, [], [])
  | e :: es =>
    match step s e with
    | Except.error c => (Except.error c, [], [])
    | Except.ok (s1, acts, inv) =>
      let r := run s1 es
      (r.1, acts ++ r.2.1, inv ++ r.2.2)

/-- A C heap of live `malloc`ed string buffers: address paired with
contents.  Only the buffers the ABI adapter touches are modelled. -/
def heapLookup : List (Nat × String) → Nat → Option String
  | [], _ => none
  | p :: ps, a => if p.1 = a then some p.2 else heapLookup ps a

/-- Deallocate the buffer at an address (`free`). -/
def heapFree (heap : List (Nat × String)) (a : Nat) : List (Nat × String) :=
  heap.filter (fun p => p.1 ≠ a)

/-- Embedding of the ABI entry point `open_url` (`src/browser.cc` lines 102
to 106):

  `std::string url(cstr_url);` — copy the caller's bytes (a read through
  the pointer, a crash if the buffer is not live);
  `free((void*)cstr_url);` — the adapter itself frees the caller's buffer;
  then `browser->OpenUrl(url, width, height, [browser]() { signalReady(browser); })`
  and return `1` or `0`. -/
def open_url (heap : List (Nat × String)) (s : BrowserState) (cstr_url : Nat)
    (width height : Int) (newCtx : Nat) (buildResult : Option Nat) :
    Except Crash (List (Nat × String) × BrowserState × Int × List EngineCall) :=
  match heapLookup heap cstr_url with
  | none => Except.error Crash.nullDeref
  | some str =>
    let heap1 := heapFree heap cstr_url
    match Browser.OpenUrl s str width height signalReadyCb newCtx buildResult with
    | Except.error c => Except.error c
    | Except.ok (s1, ok, acts) =>
      Except.ok (heap1, s1, if ok then 1 else 0, acts)

/-- Embedding of the ABI entry point `evaluate_script` (`src/browser.cc`
lines 110 to 116): `std::string script(cstr_script);` (copy),
`free((void*)cstr_script);` (the adapter frees the caller's buffer), then
`browser->Evaluate(script, ...signalEvaluateResult...)`. -/
def evaluate_script (heap : List (Nat × String)) (s : BrowserState)
    (cstr_script : Nat) :
    Except Crash (List (Nat × String) × BrowserState × List EngineCall) :=
  match heapLookup heap cstr_script with
  | none => Except.error Crash.nullDeref
  | some str =>
    let heap1 := heapFree heap cstr_script
    let r := Browser.Evaluate s str signalEvaluateResultCb
    Except.ok (heap1, r.1, r.2)

/-- Embedding of `base::StringToInt` as used by `Browser::Run`: an optional
leading minus sign followed by one or more ASCII digits, nothing else;
fails (returns `none`) on an empty string, any non-digit character, or a
value that does not fit a 32-bit `int`. -/
def StringToInt (s : String) : Option Int :=
  match s.toList with
  | [] => none
  | c :: cs =>
    let digits : List Char := if c = '-' then cs else c :: cs
    if digits ≠ [] ∧ digits.all Char.isDigit then
      let magnitude : Nat := digits.foldl (fun a d => a * 10 + (d.toNat - 48)) 0
      let v : Int := if c = '-' then -(magnitude : Int) else (magnitude : Int)
      if -(2 ^ 31) ≤ v ∧ v < 2 ^ 31 then some v else none
    else none

/-- Embedding of `base::IsValueInRangeForNumericType<uint16_t>` on an `int`
value. -/
def IsValueInRangeForUint16 (v : Int) : Bool :=
  decide (0 ≤ v ∧ v ≤ 65535)

/-- The command-line switches `Browser::Run`
(`src/cc/hc_server/browser.cc`) consults: values of `--port`, `--addr`,
`--proxy` when present. -/
structure CommandLineSwitches where
  port : Option String
  addr : Option String
  proxy : Option String
  deriving DecidableEq, Repr

/-- Outcome of the configuration phase of `Browser::Run`
(`src/cc/hc_server/browser.cc` lines 28 to 84): either `LOG(FATAL)` with
its message — which aborts the process before
`headless::HeadlessBrowserMain` runs, so `Browser::onStart` never
executes and `browser_` is never set — or reaching
`HeadlessBrowserMain` with the validated devtools endpoint. -/
inductive RunResult where
  | fatal (msg : String)
  | started (port : Int) (addr : String) (proxy : Option String)
  deriving DecidableEq, Repr

/-- Default values `kDefaultPort` and `kDefaultAddr` of
`src/cc/hc_server/browser.cc` lines 23 and 24. -/
def kDefaultPort : Int := 9222

def kDefaultAddr : String := "127.0.0.1"

/-- The part of `Browser::Run` after the port has been validated: resolve
`addr` (default `127.0.0.1`), `net::ParseURLHostnameToAddress` (external,
modelled by the oracle `addrParses`), fatal if unparseable; then, if a
proxy switch is present, `net::HostPortPair::FromString` (external,
modelled by the oracles `proxyHost` and `proxyPortNum`), fatal when the
host is empty or the port is zero; otherwise reach
`HeadlessBrowserMain`. -/
def hcRunAfterPort (cfg : CommandLineSwitches) (addrParses : String → Bool)
    (proxyHost : String → String) (proxyPortNum : String → Nat)
    (port : Int) : RunResult :=
  let addr : String :=
    match cfg.addr with
    | some a => a
    | none => kDefaultAddr
  if ¬ addrParses addr then
    RunResult.fatal ("Invalid devtools server address: " ++ addr)
  else
    match cfg.proxy with
    | some ps =>
      if (proxyHost ps).isEmpty ∨ proxyPortNum ps = 0 then
        RunResult.fatal ("Malformed proxy server: " ++ ps)
      else RunResult.started port addr (some ps)
    | none => RunResult.started port addr none

/-- Embedding of the configuration phase of `Browser::Run`
(`src/cc/hc_server/browser.cc` lines 28 to 84).  Port parsing
(lines 34 to 43): `int port = kDefaultPort;` and, when `--port` is
present, `LOG(FATAL)` unless `base::StringToInt` succeeds and the value
is in `uint16_t` range. -/
def hcRun (cfg : CommandLineSwitches) (addrParses : String → Bool)
    (proxyHost : String → String) (proxyPortNum : String → Nat) : RunResult :=
  match cfg.port with
  | none => hcRunAfterPort cfg addrParses proxyHost proxyPortNum kDefaultPort
  | some str =>
    match StringToInt str with
    | none => RunResult.fatal ("Invalid devtools server port: " ++ str)
    | some p =>
      if IsValueInRangeForUint16 p then
        hcRunAfterPort cfg addrParses proxyHost proxyPortNum p
      else RunResult.fatal ("Invalid devtools server port: " ++ str)

instance {ε α : Type} [DecidableEq ε] [DecidableEq α] : DecidableEq (Except ε α) := fun a b =>
  match a, b with
  | Except.error e1, Except.error e2 =>
    if h : e1 = e2 then isTrue (by rw [h]) else isFalse (by intro hc; cases hc; exact h rfl)
  | Except.error _, Except.ok _ => isFalse (by intro hc; cases hc)
  | Except.ok _, Except.error _ => isFalse (by intro hc; cases hc)
  | Except.ok v1, Except.ok v2 =>
    if h : v1 = v2 then isTrue (by rw [h]) else isFalse (by intro hc; cases hc; exact h rfl)

/-- Session state reached by `onStart` when `Run` was called without any
prior navigation: engine handle set, everything else still as the
constructor left it.  This is the `Running(NoPage)` state of the spec. -/
def startedState : BrowserState :=
  { browser_ := some 1, browser_context_ := none, web_contents_ := none,
    pageLoadedCb_ := none, pageObserverAdded := false, clientAttached := false }

/-- Session state with engine, context and page handles all set and the
devtools client attached: the `Attached` state of the spec. -/
def attachedState : BrowserState :=
  { browser_ := some 1, browser_context_ := some 2, web_contents_ := some 3,
    pageLoadedCb_ := none, pageObserverAdded := true, clientAttached := true }

/-- Recognises `browser_context_->Close()` calls in a call trace. -/
def isCloseContext : EngineCall → Bool
  | EngineCall.closeContext _ => true
  | _ => false

/-- A freed address no longer resolves in the heap. -/
theorem heapFree_lookup (heap : List (Nat × String)) (a : Nat) :
    heapLookup (heapFree heap a) a = none := by
  induction heap with
  | nil => rfl
  | cons p ps ih =>
    by_cases h : p.1 = a
    · simp [heapFree, heapLookup, h] at ih ⊢
      simpa [heapFree] using ih
    · simp [heapFree, heapLookup, h] at ih ⊢
      simpa [heapFree, heapLookup, h] using ih

/-- Claim C1: the spec requires `Shutdown` to be safe from every
post-creation state, in particular when the engine handle is set but the
browsing-context handle is still null.  The code violates this:
`Browser::Shutdown` guards `browser_` and `web_contents_` but calls
`browser_context_->Close()` unguarded, so in the state reached by engine
startup alone (`onStart` ran, no `OpenUrl` yet — `browser_` set,
`browser_context_` null) it dereferences the null browsing-context
handle.  This theorem evaluates the code on that failing trace. -/
theorem shutdown_after_start_dereferences_null_context :
    run Browser.init [Event.evOnStart 0 1, Event.evShutdown]
      = (Except.error Crash.nullDeref, [], [0]) := by decide

/-- Claim C2: the spec says the readiness continuation supplied to
`navigate` is invoked once both the attach signal and the load-complete
event have been observed.  The code violates this: `Browser::OpenUrl`
never stores its `readyCb` argument, `pageLoadedCb_` is never assigned
anywhere in the program, and `Browser::OnLoadEventFired` invokes the
empty `std::function` — `std::bad_function_call`.  On the trace where
both conditions occur (attach, then load-complete), the session crashes
and the continuation `9` supplied to `OpenUrl` is never invoked (only
the startup continuation `0` ever ran). -/
theorem load_event_crashes_and_navigate_cb_never_invoked :
    run Browser.init
      [Event.evOnStart 0 1,
       Event.evOpenUrl "http://example.test" 0 0 9 2 (some 3),
       Event.evDevToolsTargetReady,
       Event.evLoadEventFired]
      = (Except.error Crash.badFunctionCall,
         [EngineCall.addWCObserver 3, EngineCall.attachClient 3,
          EngineCall.addPageObserver, EngineCall.enablePage],
         [0]) ∧
    (9 : Nat) ∉ ([0] : List Nat) := by decide

/-- Claim C3: for every engine evaluation response, `EvaluateCallback`
invokes the result callback exactly once — with failure and the
exception text when exception details are present, and with success and
the serialized value string otherwise; never both, never neither. -/
theorem evaluateCallback_exactly_once (r : EvaluateResult) :
    (EvaluateCallback r).length = 1 ∧
    EvaluateCallback r
      = [if r.hasExceptionDetails then (false, r.exceptionText)
         else (true, r.valueString)] := by
  cases hr : r.hasExceptionDetails <;> simp [EvaluateCallback, hr]

/-- Claim C4 (helper): any completed `Shutdown` leaves `browser_` null,
and `Shutdown` of a state with `browser_` null returns immediately,
changing nothing and issuing no engine calls. -/
theorem shutdown_of_browser_none (s : BrowserState) (h : s.browser_ = none) :
    Browser.Shutdown s = Except.ok (s, []) := by
  simp [Browser.Shutdown, h]

/-- Claim C4: `shutdown` is idempotent — whenever a `Shutdown` call
completes (no crash), a subsequent `Shutdown` from the resulting state is
a no-op: it returns with the state unchanged, issues no engine calls and
raises no error.  (`Browser::Shutdown` nulls `browser_` on every
completed teardown, and `if (!browser_) return;` short-circuits every
later call.) -/
theorem shutdown_idempotent (s s1 : BrowserState) (acts : List EngineCall)
    (h : Browser.Shutdown s = Except.ok (s1, acts)) :
    Browser.Shutdown s1 = Except.ok (s1, []) := by
  obtain ⟨b, c, w, p, po, ca⟩ := s
  cases b with
  | none =>
    simp [Browser.Shutdown] at h
    obtain ⟨h1, -⟩ := h
    rw [← h1]
    exact shutdown_of_browser_none _ rfl
  | some bv =>
    cases c with
    | none => cases w <;> simp [Browser.Shutdown] at h
    | some cv =>
      cases w <;> simp [Browser.Shutdown] at h <;>
        (obtain ⟨h1, -⟩ := h; rw [← h1]; exact shutdown_of_browser_none _ rfl)

/-- Witness for claim C4: a fully-set-up session shuts down once with the
full teardown, and a second `Shutdown` is a no-op. -/
theorem shutdown_idempotent_witness :
    Browser.Shutdown attachedState
      = Except.ok (⟨none, none, none, none, true, true⟩,
          [EngineCall.removeWCObserver 3, EngineCall.closeContext 2,
           EngineCall.shutdownBrowser 1]) ∧
    Browser.Shutdown ⟨none, none, none, none, true, true⟩
      = Except.ok (⟨none, none, none, none, true, true⟩, []) :=
  ⟨by decide,
   shutdown_idempotent attachedState ⟨none, none, none, none, true, true⟩
     [EngineCall.removeWCObserver 3, EngineCall.closeContext 2,
      EngineCall.shutdownBrowser 1] (by decide)⟩

/-- Claim C5 counterexample: in a state with no page, no attachment, no
navigation (engine started only), the code does not reject `Evaluate`:
the call returns normally, invokes nothing on the caller, signals no
failure, and forwards the script to the devtools client's runtime.  This
refutes "the call is rejected with an explicit fast failure signalled to
the caller". -/
theorem evaluate_unattached_silently_forwarded :
    step startedState (Event.evEvaluate "1+1" 7)
      = Except.ok (startedState, [EngineCall.submitEvaluate "1+1" 7], []) := by
  decide

/-- Claim C5 as amended: `Browser::Evaluate` performs no lifecycle-state
check at all — from every state, attached or not, the call is accepted
unconditionally, forwards the script to
`devtools_client_->GetRuntime()->Evaluate`, changes no session state,
and signals nothing (neither rejection nor failure) to the caller. -/
theorem evaluate_has_no_state_check (s : BrowserState) (script : String)
    (resultCb : Nat) :
    step s (Event.evEvaluate script resultCb)
      = Except.ok (s, [EngineCall.submitEvaluate script resultCb], []) := rfl

/-- Claim C6 counterexample: `open_url` frees the caller's url buffer
itself — after the call returns, address `5` is no longer allocated (the
result heap is empty).  This refutes "the adapter ... never frees ... the
caller's buffer", and a caller that freed the string after the call, as
the claim says it may, would double-free. -/
theorem open_url_frees_the_caller_buffer :
    open_url [(5, "http://x.test")] startedState 5 0 0 2 (some 3)
      = Except.ok ([], ⟨some 1, some 2, some 3, none, false, false⟩, 1,
          [EngineCall.addWCObserver 3]) := by decide

/-- Claim C6 as amended: both ABI string arguments are copied into a
`std::string` before the underlying call (which receives the copy, never
the pointer), but the adapter then frees the caller's buffer itself —
ownership transfers to the adapter on entry, and after the call the
address is no longer allocated, so the caller must not free it. -/
theorem abi_strings_copied_then_freed_by_adapter (heap : List (Nat × String))
    (s : BrowserState) (addr : Nat) (str : String) (width height : Int)
    (newCtx : Nat) (buildResult : Option Nat)
    (hl : heapLookup heap addr = some str) :
    open_url heap s addr width height newCtx buildResult
      = (match Browser.OpenUrl s str width height signalReadyCb newCtx buildResult with
         | Except.error c => Except.error c
         | Except.ok (s1, ok, acts) =>
           Except.ok (heapFree heap addr, s1, if ok then (1 : Int) else 0, acts)) ∧
    evaluate_script heap s addr
      = Except.ok (heapFree heap addr, s,
          [EngineCall.submitEvaluate str signalEvaluateResultCb]) ∧
    heapLookup (heapFree heap addr) addr = none := by
  refine ⟨?_, ?_, heapFree_lookup heap addr⟩ <;>
    simp [open_url, evaluate_script, hl, Browser.Evaluate]

/-- Witness for claim C6 at a concrete heap, address and session state. -/
theorem abi_strings_copied_then_freed_by_adapter_witness :
    heapLookup [(5, "1+1")] 5 = some "1+1" ∧
    (open_url [(5, "1+1")] attachedState 5 0 0 7 (some 8)
       = (match Browser.OpenUrl attachedState "1+1" 0 0 signalReadyCb 7 (some 8) with
          | Except.error c => Except.error c
          | Except.ok (s1, ok, acts) =>
            Except.ok (heapFree [(5, "1+1")] 5, s1, if ok then (1 : Int) else 0, acts)) ∧
     evaluate_script [(5, "1+1")] attachedState 5
       = Except.ok (heapFree [(5, "1+1")] 5, attachedState,
           [EngineCall.submitEvaluate "1+1" signalEvaluateResultCb]) ∧
     heapLookup (heapFree [(5, "1+1")] 5) 5 = none) :=
  ⟨by decide,
   abi_strings_copied_then_freed_by_adapter [(5, "1+1")] attachedState 5 "1+1"
     0 0 7 (some 8) (by decide)⟩

/-- Claim C7 counterexample: re-navigation from a state with an open page
(page handle `3`, browsing context `2`) closes the page handle but never
closes the superseded browsing context — no `closeContext 2` appears in
the calls issued, and the context handle is simply overwritten with the
fresh one.  This refutes "all of the previous page's resources (page
handle and its browsing context) are closed/released". -/
theorem renavigation_does_not_close_previous_context :
    Browser.OpenUrl attachedState "http://new.test" 0 0 9 7 (some 8)
      = Except.ok (⟨some 1, some 7, some 8, none, true, true⟩, true,
          [EngineCall.closeWebContents 3, EngineCall.addWCObserver 8]) ∧
    EngineCall.closeContext 2
      ∉ [EngineCall.closeWebContents 3, EngineCall.addWCObserver 8] := by decide

/-- Claim C7 as amended: when `navigate` is called while a page is open,
the previous page handle is closed first (`web_contents_->Close()` is the
first engine call issued, before the new page is built or observed), but
the previous browsing-context handle is not closed — no
`browser_context_->Close()` call occurs anywhere in re-navigation, the
old context handle being overwritten by the fresh one; and since
`OpenUrl` never stores its readiness continuation (claim C2), the
superseded navigation's continuation is never invoked afterwards. -/
theorem renavigation_closes_page_first_never_context (s : BrowserState)
    (wc : Nat) (hw : s.web_contents_ = some wc) (url : String)
    (width height : Int) (readyCb newCtx : Nat) (buildResult : Option Nat)
    (s1 : BrowserState) (accepted : Bool) (acts : List EngineCall)
    (hok : Browser.OpenUrl s url width height readyCb newCtx buildResult
      = Except.ok (s1, accepted, acts)) :
    acts.head? = some (EngineCall.closeWebContents wc) ∧
    acts.filter isCloseContext = [] ∧
    s1.browser_context_ = some newCtx := by
  cases hb : s.browser_ with
  | none => simp [Browser.OpenUrl, hb, hw] at hok
  | some bv =>
    cases buildResult with
    | none =>
      simp [Browser.OpenUrl, hb, hw] at hok
      obtain ⟨h1, -, h3⟩ := hok
      subst h1 h3
      simp [isCloseContext]
    | some wc2 =>
      simp [Browser.OpenUrl, hb, hw] at hok
      obtain ⟨h1, -, h3⟩ := hok
      subst h1 h3
      simp [isCloseContext]

/-- Witness for claim C7: concrete re-navigation from the attached state. -/
theorem renavigation_closes_page_first_never_context_witness :
    attachedState.web_contents_ = some 3 ∧
    Browser.OpenUrl attachedState "http://b.test" 640 480 9 7 (some 8)
      = Except.ok (⟨some 1, some 7, some 8, none, true, true⟩, true,
          [EngineCall.closeWebContents 3, EngineCall.addWCObserver 8]) ∧
    ([EngineCall.closeWebContents 3, EngineCall.addWCObserver 8].head?
        = some (EngineCall.closeWebContents 3) ∧
      [EngineCall.closeWebContents 3, EngineCall.addWCObserver 8].filter isCloseContext = [] ∧
      (⟨some 1, some 7, some 8, none, true, true⟩ : BrowserState).browser_context_ = some 7) :=
  ⟨by decide, by decide,
   renavigation_closes_page_first_never_context attachedState 3 (by decide)
     "http://b.test" 640 480 9 7 (some 8)
     ⟨some 1, some 7, some 8, none, true, true⟩ true
     [EngineCall.closeWebContents 3, EngineCall.addWCObserver 8] (by decide)⟩

/-- Claim C8 counterexample: a full session (start, navigate, devtools
attach, shutdown) ends with `pageObserverAdded` and `clientAttached`
still `true` — `Shutdown` never detaches the Debug Channel's page
observer or the devtools client; the only observer it removes is the
web-contents observer (`web_contents_->RemoveObserver(this)`), and the
page handle is nulled without any release call.  The full engine-call
trace contains no page-observer detach.  This refutes "it first detaches
the Debug Channel's page observer ... every acquired observer
registration and handle is released". -/
theorem shutdown_never_detaches_page_observer :
    run Browser.init
      [Event.evOnStart 0 1,
       Event.evOpenUrl "http://a.test" 0 0 9 2 (some 3),
       Event.evDevToolsTargetReady,
       Event.evShutdown]
      = (Except.ok ⟨none, none, none, none, true, true⟩,
         [EngineCall.addWCObserver 3, EngineCall.attachClient 3,
          EngineCall.addPageObserver, EngineCall.enablePage,
          EngineCall.removeWCObserver 3, EngineCall.closeContext 2,
          EngineCall.shutdownBrowser 1],
         [0]) := by decide

/-- Claim C8 as amended: from a state with engine, context and page
handles all set, `Shutdown` proceeds in this order: it removes the
session's web-contents observer registration, nulls the page handle
(without a release call on it), closes and nulls the browsing-context
handle, then shuts down and nulls the engine handle — and it leaves the
Debug Channel's page-observer registration and client attachment exactly
as they were (the `with`-update below keeps `pageObserverAdded` and
`clientAttached` untouched). -/
theorem shutdown_teardown_order (s : BrowserState) (b ctx wc : Nat)
    (hb : s.browser_ = some b) (hc : s.browser_context_ = some ctx)
    (hw : s.web_contents_ = some wc) :
    Browser.Shutdown s = Except.ok
      ({ s with web_contents_ := none, browser_context_ := none, browser_ := none },
       [EngineCall.removeWCObserver wc, EngineCall.closeContext ctx,
        EngineCall.shutdownBrowser b]) := by
  simp [Browser.Shutdown, hb, hc, hw]

/-- Witness for claim C8: teardown of the concrete attached session. -/
theorem shutdown_teardown_order_witness :
    attachedState.browser_ = some 1 ∧
    attachedState.browser_context_ = some 2 ∧
    attachedState.web_contents_ = some 3 ∧
    Browser.Shutdown attachedState = Except.ok
      ({ attachedState with web_contents_ := none, browser_context_ := none, browser_ := none },
       [EngineCall.removeWCObserver 3, EngineCall.closeContext 2,
        EngineCall.shutdownBrowser 1]) :=
  ⟨rfl, rfl, rfl,
   shutdown_teardown_order attachedState 1 2 3 rfl rfl rfl⟩

/-- Whether the configuration phase of `Browser::Run` reached
`headless::HeadlessBrowserMain` — only then can the engine invoke
`Browser::onStart`, set `browser_`, and bring a session to `Running`. -/
def RunResult.reachesEngine : RunResult → Bool
  | RunResult.fatal _ => false
  | RunResult.started _ _ _ => true

/-- Claim C9: if the `--port` switch is present and its value either fails
`base::StringToInt` or falls outside the `uint16_t` range, `Browser::Run`
hits `LOG(FATAL)` ("Invalid devtools server port") during configuration
parsing — before `headless::HeadlessBrowserMain` is reached, so
`Browser::onStart` never runs, `browser_` is never set, and no session
reaches the `Running` state (`reachesEngine` is `false`). -/
theorem invalid_port_is_fatal_before_engine_start (cfg : CommandLineSwitches)
    (addrParses : String → Bool) (proxyHost : String → String)
    (proxyPortNum : String → Nat) (str : String)
    (hport : cfg.port = some str)
    (hbad : StringToInt str = none ∨
      ∃ p, StringToInt str = some p ∧ IsValueInRangeForUint16 p = false) :
    hcRun cfg addrParses proxyHost proxyPortNum
      = RunResult.fatal ("Invalid devtools server port: " ++ str) ∧
    (hcRun cfg addrParses proxyHost proxyPortNum).reachesEngine = false := by
  have h1 : hcRun cfg addrParses proxyHost proxyPortNum
      = RunResult.fatal ("Invalid devtools server port: " ++ str) := by
    unfold hcRun
    rcases hbad with h | ⟨p, hp, hr⟩
    · simp [hport, h]
    · simp [hport, hp, hr]
  exact ⟨h1, by rw [h1]; rfl⟩

/-- Witness for claim C9: the port value `70000` parses as an integer but
exceeds `uint16_t`, so startup is fatal. -/
theorem invalid_port_is_fatal_witness :
    StringToInt "70000" = some 70000 ∧
    IsValueInRangeForUint16 70000 = false ∧
    (hcRun ⟨some "70000", none, none⟩ (fun _ => true) (fun ps => ps) (fun _ => 8080)
       = RunResult.fatal ("Invalid devtools server port: " ++ "70000") ∧
     (hcRun ⟨some "70000", none, none⟩ (fun _ => true) (fun ps => ps)
        (fun _ => 8080)).reachesEngine = false) :=
  ⟨by decide, by decide,
   invalid_port_is_fatal_before_engine_start ⟨some "70000", none, none⟩
     (fun _ => true) (fun ps => ps) (fun _ => 8080) "70000" rfl
     (Or.inr ⟨70000, by decide, by decide⟩)⟩

/-- Claim C10: `Browser::OpenUrl` never consults its `width` and `height`
parameters — from any state, with the same url, continuation and
engine responses, two calls differing only in width and height return
the same acceptance flag, produce the same session state, and issue the
same engine calls. -/
theorem openUrl_independent_of_dimensions (s : BrowserState) (url : String)
    (w1 h1 w2 h2 : Int) (readyCb newCtx : Nat) (buildResult : Option Nat) :
    Browser.OpenUrl s url w1 h1 readyCb newCtx buildResult
      = Browser.OpenUrl s url w2 h2 readyCb newCtx buildResult := rfl
